import Mathlib

/-!
Shallow embedding of the membership-screening and poll data-model layer of
the `discord` package (files `discord/membership_screening.py`,
`discord/poll.py`, `discord/types/poll.py`), together with theorems settling
the specification claims about it.

Machine integers are modelled as `Int`/`Nat` (Python integers are unbounded),
fallible code as `Except`, keyword-argument mappings as records with explicit
`Option` fields, and the asynchronous collaborator as an explicit function
argument.
-/

namespace Discord

/-- Python exceptions raised by this layer, with their messages.  A
`nameError` carries the unbound variable's name. -/
inductive PyError where
  | typeError (msg : String)
  | nameError (varname : String)
  | valueError (msg : String)
  | runtimeError (msg : String)
deriving DecidableEq, Repr

/- ### Membership screening form fields (`discord/membership_screening.py`) -/

/-- Modelled from the spec: the wire value of the `server_rules` member of the
`MembershipScreeningFormFieldType` enumeration (`discord/enums.py` is not part
of the sources; the spec places enumeration constant tables out of scope and
says `field_type` is an int on the wire). -/
def serverRulesTag : Int := 1

/-- Modelled from the spec: the set of `field_type` wire values recognised by
the `MembershipScreeningFormFieldType` enumeration; unrecognised values pass
through `try_enum` as the raw value. -/
def recognizedFieldTypeValues : List Int := [serverRulesTag]

/-- Result of `try_enum(MembershipScreeningFormFieldType, v)`: either an enum
member (carrying its underlying value) or the raw value passed through. -/
inductive FieldType where
  | member (v : Int)
  | raw (v : Int)
deriving DecidableEq, Repr

/-- Modelled from the spec: `try_enum` returns the enum member when the value
is recognised and otherwise returns the value unchanged. -/
def tryEnumFieldType (v : Int) : FieldType :=
  if v ∈ recognizedFieldTypeValues then .member v else .raw v

/-- Serialisation of a `type` attribute by `to_dict`: a recognised enum member
serialises as its underlying value, anything else is passed through as-is. -/
def FieldType.serialize : FieldType → Int
  | .member v => v
  | .raw v => v

/-- The concrete class selected by `_membership_screening_field_factory`. -/
inductive FieldClass where
  | base        -- MembershipScreeningFormField
  | serverRules -- ServerRules
deriving DecidableEq, Repr

/-- Value stored in the private `_values` slot: a list of strings or the
`MembershipScreeningFormField.Empty` sentinel (an instance of `utils._Empty`,
distinct from the empty list). -/
inductive ValuesAttr where
  | list (items : List String)
  | empty
deriving DecidableEq, Repr

/-- A Python object appearing as an item of a list assigned to `values`:
either a `str` or some other object carrying its class name. -/
inductive ScreenValue where
  | str (s : String)
  | other (typeName : String)
deriving DecidableEq, Repr

/-- A Python value assigned to the `values` property: a list, the `Empty`
sentinel, or some other object carrying its class name. -/
inductive PyAssign where
  | list (items : List ScreenValue)
  | emptySentinel
  | other (typeName : String)
deriving DecidableEq, Repr

/-- Models `all(isinstance(item, str) for item in value)`: returns the underlying
strings when every item is a `str`, and `none` otherwise. -/
def allStrings : List ScreenValue → Option (List String)
  | [] => some []
  | .str s :: rest => (allStrings rest).map (s :: ·)
  | .other _ :: _ => none

/-- The wire payload of a screening form field (`field_type`, `label`,
`required`, optional `values`), which is also the dictionary produced by
`to_dict` (whose keys, in insertion order, are `values` when the `_values`
slot is set, then `field_type`, `label`, `required`). -/
structure FieldPayload where
  values : Option ValuesAttr
  field_type : Int
  label : String
  required : Bool
deriving DecidableEq, Repr

/-- In-memory `MembershipScreeningFormField` (or its `ServerRules` variant,
recorded by `cls`).  `priv_values` models the `_values` slot, which may be
unset (`none`). -/
structure MembershipScreeningFormField where
  cls : FieldClass
  type : FieldType
  label : String
  required : Bool
  priv_values : Option ValuesAttr
deriving DecidableEq, Repr

namespace MembershipScreeningFormField

/-- Models `_membership_screening_field_factory`: picks `ServerRules` when
`try_enum` yields the `server_rules` member, else the base class. -/
def fieldFactory (field_type : Int) : FieldClass × FieldType :=
  let value := tryEnumFieldType field_type
  if value = .member serverRulesTag then (.serverRules, value) else (.base, value)

/-- Models `MembershipScreeningFormField.from_dict`: bypasses `__init__`, sets
`type` from the factory, copies `label` and `required`, and sets the
`_values` slot only when the payload has a `values` key. -/
def from_dict (data : FieldPayload) : MembershipScreeningFormField :=
  let fc := fieldFactory data.field_type
  { cls := fc.1
    type := fc.2
    label := data.label
    required := data.required
    priv_values := data.values }

/-- Models `MembershipScreeningFormField.to_dict`: dumps every set private slot
stripped of its underscore (here only `values`), then `field_type` (the
enum's underlying value when the type is a recognised member, else the raw
value as-is), `label` and `required`. -/
def to_dict (f : MembershipScreeningFormField) : FieldPayload :=
  { values := f.priv_values
    field_type := f.type.serialize
    label := f.label
    required := f.required }

/-- Models `MembershipScreeningFormField.copy`: serialise-then-reparse round trip. -/
def copy (f : MembershipScreeningFormField) : MembershipScreeningFormField :=
  from_dict (to_dict f)

/-- The `values` property getter: the `_values` slot when set, else the
`Empty` sentinel. -/
def values (f : MembershipScreeningFormField) : ValuesAttr :=
  f.priv_values.getD .empty

/-- The `values` property setter.  For a list, every item must be a `str`;
the failing branch executes
`raise TypeError('... List[%s] ...' % item.__class__.__name__)` where `item`
is the generator-expression variable of the preceding `all(...)` call, which
is not in scope at the raise, so Python raises `NameError: name 'item' is not
defined` there.  A non-list, non-sentinel value raises the documented
`TypeError` naming the value's class. -/
def set_values (f : MembershipScreeningFormField) (v : PyAssign) :
    Except PyError MembershipScreeningFormField :=
  match v with
  | .list items =>
    match allStrings items with
    | some ss => .ok { f with priv_values := some (.list ss) }
    | none => .error (.nameError "item")
  | .emptySentinel => .ok { f with priv_values := some .empty }
  | .other typeName =>
    .error (.typeError
      ("Expected List[str] or MembershipScreeningFormField.Empty but recieved "
        ++ typeName ++ " instead"))

end MembershipScreeningFormField

/- ### Python `str()` of a field payload dictionary

`update` transmits `form_fields` as `[str(f.to_dict()) for f in form_fields]`,
so we model CPython's `str`/`repr` on the dictionaries produced by `to_dict`.
Control-character escaping inside strings is not modelled (the payloads the
claims evaluate contain none). -/

/-- A single-quote character as a string. -/
def squote : String := String.singleton (Char.ofNat 39)

/-- A double-quote character as a string. -/
def dquote : String := String.singleton (Char.ofNat 34)

/-- CPython `repr` of a `str`: double-quoted when the text contains a single
quote but no double quote, else single-quoted with backslashes and single
quotes escaped. -/
def pyReprStr (s : String) : String :=
  let escBackslash (t : String) : String :=
    t.foldl (fun acc c => acc ++ (if c = Char.ofNat 92 then "\\\\" else String.singleton c)) ""
  if s.contains (Char.ofNat 39) && !s.contains (Char.ofNat 34) then
    dquote ++ escBackslash s ++ dquote
  else
    squote
      ++ (escBackslash s).foldl
          (fun acc c =>
            acc ++ (if c = Char.ofNat 39 then "\\" ++ squote else String.singleton c)) ""
      ++ squote

/-- CPython `repr` of a value stored in the `_values` slot: a list of string
reprs, or the repr of the `utils._Empty` sentinel.  Modelled from the spec:
`utils._Empty` (`discord/utils.py` is not part of the sources) is constructed
as `utils._Empty('MembershipScreeningFormField.Empty')` and is taken to show
its given name. -/
def pyReprValues : ValuesAttr → String
  | .list xs => "[" ++ String.intercalate ", " (xs.map pyReprStr) ++ "]"
  | .empty => "MembershipScreeningFormField.Empty"

/-- CPython `str()` of the dictionary produced by
`MembershipScreeningFormField.to_dict`, with keys in insertion order:
`values` (only when the slot is set), then `field_type`, `label`,
`required`. -/
def strOfFieldPayload (p : FieldPayload) : String :=
  let base := squote ++ "field_type" ++ squote ++ ": " ++ toString p.field_type
    ++ ", " ++ squote ++ "label" ++ squote ++ ": " ++ pyReprStr p.label
    ++ ", " ++ squote ++ "required" ++ squote ++ ": "
    ++ (if p.required then "True" else "False")
  match p.values with
  | some v =>
    "\x7b" ++ squote ++ "values" ++ squote ++ ": " ++ pyReprValues v ++ ", " ++ base ++ "\x7d"
  | none => "\x7b" ++ base ++ "\x7d"

/- ### Screening forms and the update flow -/

/-- A parsed `datetime.datetime`; the standard-library parsers (`strptime`,
`fromisoformat`) are modelled as an abstract embedding carrying the source
string. -/
structure PyDatetime where
  iso : String
deriving DecidableEq, Repr

/-- Models `datetime.datetime.fromisoformat`, modelled abstractly (see
`PyDatetime`). -/
def fromisoformat (s : String) : PyDatetime := ⟨s⟩

/-- Models `datetime.datetime.strptime(s, '%Y-%m-%dT%H:%M:%S.%f+00:00')`, modelled
abstractly (see `PyDatetime`). -/
def strptimeVersion (s : String) : PyDatetime := ⟨s⟩

/-- Wire payload of a membership screening form. -/
structure FormPayload where
  version : String
  description : Option String
  form_fields : List FieldPayload
deriving DecidableEq, Repr

/-- The data-dependent state of a `MembershipScreeningForm` (the guild
back-reference is held separately by the caller). -/
structure FormState where
  version : PyDatetime
  description : Option String
  fields : List MembershipScreeningFormField
deriving DecidableEq, Repr

/-- Models `MembershipScreeningForm._from_data`: parses the version timestamp, reads
the optional description, and converts every field payload via
`from_dict`. -/
def formFromData (d : FormPayload) : FormState :=
  { version := strptimeVersion d.version
    description := d.description
    fields := d.form_fields.map MembershipScreeningFormField.from_dict }

/-- The keyword-argument mapping `**fields` passed to `update`.  `extra`
holds the names of unrecognised keyword arguments, which Python accepts into
the same dictionary. -/
structure UpdateKwargs where
  enabled : Option Bool
  fields : Option (List MembershipScreeningFormField)
  description : Option String
  extra : List String
deriving DecidableEq, Repr

/-- Python truthiness of the `fields` keyword dictionary: nonempty. -/
def UpdateKwargs.nonempty (kw : UpdateKwargs) : Bool :=
  kw.enabled.isSome || kw.fields.isSome || kw.description.isSome || !kw.extra.isEmpty

/-- The mapping transmitted to the collaborator's
`update_member_verification(guild_id, **fields)` call: the (possibly
augmented) keyword dictionary, which still contains the original `fields`
key when it was supplied, plus the derived `form_fields` key. -/
structure UpdateRequest where
  guild_id : Nat
  enabled : Option Bool
  fields : Option (List MembershipScreeningFormField)
  form_fields : Option (List String)
  description : Option String
  extra : List String
deriving DecidableEq, Repr

/-- Models `MembershipScreeningForm.update(**fields)`: when the `fields` key is
present, adds `form_fields = [str(f.to_dict()) for f in fields['fields']]`
(without removing `fields`); when the resulting dictionary is nonempty,
issues one `update_member_verification` call and replaces the whole local
state from the response; otherwise issues no call and leaves the state
unchanged.  Returns the list of issued requests and the resulting state,
given the collaborator's `response`. -/
def MembershipScreeningForm.update (guild_id : Nat) (st : FormState)
    (kw : UpdateKwargs) (response : FormPayload) :
    List UpdateRequest × FormState :=
  let form_fields := kw.fields.map fun fs =>
    fs.map fun f => strOfFieldPayload f.to_dict
  if kw.nonempty then
    ([{ guild_id := guild_id
        enabled := kw.enabled
        fields := kw.fields
        form_fields := form_fields
        description := kw.description
        extra := kw.extra }],
      formFromData response)
  else ([], st)

/-- Models `PartialMembershipScreeningForm.update(**fields)`: same augmentation and
emptiness check; on a nonempty dictionary issues one call and returns a new
full form built from the response, otherwise issues no call and returns
`None`. -/
def PartialMembershipScreeningForm.update (guild_id : Nat)
    (kw : UpdateKwargs) (response : FormPayload) :
    List UpdateRequest × Option FormState :=
  let form_fields := kw.fields.map fun fs =>
    fs.map fun f => strOfFieldPayload f.to_dict
  if kw.nonempty then
    ([{ guild_id := guild_id
        enabled := kw.enabled
        fields := kw.fields
        form_fields := form_fields
        description := kw.description
        extra := kw.extra }],
      some (formFromData response))
  else ([], none)

/- ### Polls (`discord/poll.py`, wire shapes from `discord/types/poll.py`) -/

/-- Wire shape of a partial emoji (`{id, name}`). -/
structure PartialEmojiPayload where
  id : Option Nat
  name : Option String
deriving DecidableEq, Repr

/-- The `emoji` attribute of a `PollAnswer`: a plain string, or an
emoji object (`PartialEmoji`/`Emoji`; only its `id` is read by `to_dict`,
modelled here by the wrapped payload).  `PartialEmoji.from_dict`
(`discord/partial_emoji.py` is not part of the sources) is modelled as
wrapping the payload it is given. -/
inductive AnswerEmoji where
  | str (s : String)
  | obj (payload : PartialEmojiPayload)
deriving DecidableEq, Repr

/-- In-memory `PollAnswer`.  The `_poll` back-reference is modelled as its
presence (`true` once attached); `_vote_count` is an unbounded Python int. -/
structure PollAnswer where
  text : String
  emoji : Option AnswerEmoji
  priv_poll : Bool
  priv_id : Option Nat
  priv_vote_count : Int
  priv_me : Bool
deriving DecidableEq, Repr

namespace PollAnswer

/-- Models `PollAnswer.__init__(text=..., emoji=...)`: no poll back-reference, no
id, zero votes, not voted by me. -/
def make (text : String) (emoji : Option AnswerEmoji) : PollAnswer :=
  { text := text, emoji := emoji, priv_poll := false, priv_id := none
    priv_vote_count := 0, priv_me := false }

/-- Models `PollAnswer._add_vote(me)`. -/
def add_vote (a : PollAnswer) (me : Bool) : PollAnswer :=
  { a with
    priv_vote_count := a.priv_vote_count + 1
    priv_me := if me then true else a.priv_me }

/-- Models `PollAnswer._remove_vote(me)`. -/
def remove_vote (a : PollAnswer) (me : Bool) : PollAnswer :=
  { a with
    priv_vote_count := a.priv_vote_count - 1
    priv_me := if me then false else a.priv_me }

end PollAnswer

/-- Wire shape `PollMedia` (`{text?, emoji?}`). -/
structure PollMediaPayload where
  text : Option String
  emoji : Option PartialEmojiPayload
deriving DecidableEq, Repr

/-- Wire shape of a poll answer (`{answer_id, poll_media}`).  `emoji` models
a *top-level* `'emoji'` key of the runtime dictionary, which
`PollAnswer._inject_state` looks up; the documented wire shape
(`types/poll.py`) has no such key, so it is `none` for payloads of that
shape. -/
structure PollAnswerPayload where
  answer_id : Nat
  poll_media : PollMediaPayload
  emoji : Option PartialEmojiPayload
deriving DecidableEq, Repr

/-- Wire shape `PollAnswerCount` (`{id, count, me_voted}`). -/
structure PollAnswerCountPayload where
  id : Nat
  count : Int
  me_voted : Bool
deriving DecidableEq, Repr

/-- Wire shape `PollResults` (`{is_finalized, answer_counts}`). -/
structure PollResultsPayload where
  is_finalized : Bool
  answer_counts : List PollAnswerCountPayload
deriving DecidableEq, Repr

/-- Wire shape of an attached poll (`types/poll.py`, `Poll`). -/
structure PollPayload where
  question_text : String
  answers : List PollAnswerPayload
  expiry : String
  allow_multiselect : Bool
  layout_type : Int
  results : PollResultsPayload
deriving DecidableEq, Repr

/-- Models `PollAnswer._inject_state(poll, data, count)`: sets the poll
back-reference, takes `answer_id` from the payload, `count`/`me_voted` from
the count entry (zero/`False` when it is `None`), re-reads the text from
`poll_media`, and re-reads the emoji from a top-level `'emoji'` key of the
payload via `PartialEmoji.from_dict`, falling back to `None` on `KeyError`
(i.e. whenever the key is absent). -/
def PollAnswer.inject_state (a : PollAnswer) (data : PollAnswerPayload)
    (count : Option PollAnswerCountPayload) : PollAnswer :=
  { a with
    priv_poll := true
    priv_id := some data.answer_id
    priv_vote_count := match count with | some c => c.count | none => 0
    priv_me := match count with | some c => c.me_voted | none => false
    text := data.poll_media.text.getD ""
    emoji := data.emoji.map .obj }

/-- Models `zip(self.answers, data['answers'], data['results']['answer_counts'])`
followed by `answer._inject_state(...)` on each triple: the three sequences
are walked pairwise by position, stopping at the shortest; local answers
beyond that point are left untouched. -/
def injectAnswers :
    List PollAnswer → List PollAnswerPayload → List PollAnswerCountPayload →
    List PollAnswer
  | a :: as, d :: ds, c :: cs => a.inject_state d (some c) :: injectAnswers as ds cs
  | as, _, _ => as

/-- A `datetime.timedelta`, modelled by its total seconds (the claims use
whole-second durations; `total_seconds()` is exact on them). -/
structure Timedelta where
  seconds : Int
deriving DecidableEq, Repr

/-- An answer supplied to `Poll.__init__`: a plain string or a pre-built
`PollAnswer`. -/
inductive AnswerInput where
  | str (s : String)
  | answer (a : PollAnswer)
deriving DecidableEq, Repr

/-- In-memory `Poll`.  `duration` is `none` when the `MISSING` sentinel was
supplied (attached polls); `layout` stores the `PollLayoutType` value (the
enumeration table is external to the sources and never inspected by the
claims); `_message` is modelled as an opaque message identifier. -/
structure Poll where
  question : String
  answers : List PollAnswer
  duration : Option Timedelta
  allows_multiple_answers : Bool
  layout : Int
  priv_message : Option Nat
  priv_expires : Option PyDatetime
  priv_final : Bool
deriving DecidableEq, Repr

/-- The answer-processing loop of `Poll.__init__`: each input is taken in
order, strings are wrapped in a fresh `PollAnswer`, and an answer whose
`poll` back-reference is already set raises
`ValueError('PollAnswer is already attached to a poll.')` immediately,
before any later input is examined. -/
def buildAnswers : List AnswerInput → Except PyError (List PollAnswer)
  | [] => .ok []
  | ain :: rest =>
    let answer := match ain with
      | .str s => PollAnswer.make s none
      | .answer a => a
    if answer.priv_poll then
      .error (.valueError "PollAnswer is already attached to a poll.")
    else
      (buildAnswers rest).map (answer :: ·)

/-- Models `Poll.__init__(question=..., answers=..., duration=...,
allows_mutiple_answers=..., layout=...)`; `duration = none` models the
`MISSING` sentinel, which is stored as `None`. -/
def Poll.make (question : String) (answers : List AnswerInput)
    (duration : Option Timedelta) (allows_mutiple_answers : Bool)
    (layout : Int) : Except PyError Poll :=
  (buildAnswers answers).map fun as =>
    { question := question
      answers := as
      duration := duration
      allows_multiple_answers := allows_mutiple_answers
      layout := layout
      priv_message := none
      priv_expires := none
      priv_final := false }

/-- Models `Poll._inject_state(message, data)`: sets the message back-reference,
parses the expiry from its ISO-8601 string, copies the finalized flag, and
injects server state into the answers positionally. -/
def Poll.inject_state (p : Poll) (message : Nat) (data : PollPayload) : Poll :=
  { p with
    priv_message := some message
    priv_expires := some (fromisoformat data.expiry)
    priv_final := data.results.is_finalized
    answers := injectAnswers p.answers data.answers data.results.answer_counts }

/-- Wire shape of an answer inside a poll create request
(`{poll_media: {text, emoji?}}`). -/
structure PollAnswerCreateRequestPayload where
  text : String
  emoji : Option PartialEmojiPayload
deriving DecidableEq, Repr

/-- Models `PollAnswer.to_dict`: `poll_media.text` is the answer text; a string
emoji becomes `{"id": None, "name": emoji}`, an emoji object becomes
`{"id": emoji.id, "name": None}`, and `None` adds no emoji key. -/
def PollAnswer.to_dict (a : PollAnswer) : PollAnswerCreateRequestPayload :=
  { text := a.text
    emoji := match a.emoji with
      | some (.str s) => some { id := none, name := some s }
      | some (.obj e) => some { id := e.id, name := none }
      | none => none }

/-- Wire shape of a poll create request. -/
structure PollCreateRequestPayload where
  question_text : String
  answers : List PollAnswerCreateRequestPayload
  allow_multiselect : Bool
  layout_type : Int
  duration : Int
deriving DecidableEq, Repr

/-- Models `Poll.to_dict`: raises
`ValueError('Polls attached to messages cannot be created.')` when
`duration` is `None`; otherwise serialises the poll, with
`duration = int(self.duration.total_seconds() // 3600)` (Python `//` is
floor division, modelled by `Int.fdiv`). -/
def Poll.to_dict (p : Poll) : Except PyError PollCreateRequestPayload :=
  match p.duration with
  | none => .error (.valueError "Polls attached to messages cannot be created.")
  | some td =>
    .ok { question_text := p.question
          answers := p.answers.map PollAnswer.to_dict
          allow_multiselect := p.allows_multiple_answers
          layout_type := p.layout
          duration := Int.fdiv td.seconds 3600 }

/- ### Voter pagination (`PollAnswer.voters`) -/

/-- One collaborator call made by the `voters` loop: the requested page size,
the cursor sent, and the batch of user identifiers yielded for that page (in
yield order).  Member-vs-user resolution wraps the same identifiers and is
not modelled. -/
structure PageCall where
  retrieve : Nat
  after : Option Nat
  yielded : List Nat
deriving DecidableEq, Repr

/-- The `while limit > 0` loop of `voters`.  `server retrieve after` models
`state.http.get_answer_voters(..., retrieve, after=after)`, returning user
identifiers in the server's order; each nonempty page decrements `limit` by
the page length, advances the cursor to the *last received* identifier, and
yields the page in reverse of received order; an empty page breaks the loop
after its request.  `fuel` bounds the recursion; every nonempty page has
length at least 1, so `limit.toNat + 1` is always sufficient. -/
def votersLoop (server : Nat → Option Nat → List Nat) :
    Nat → Int → Option Nat → List PageCall
  | 0, _, _ => []
  | fuel + 1, limit, after =>
    if 0 < limit then
      let retrieve := (min limit 100).toNat
      match server retrieve after with
      | [] => [{ retrieve := retrieve, after := after, yielded := [] }]
      | x :: xs =>
        { retrieve := retrieve, after := after, yielded := (x :: xs).reverse }
          :: votersLoop server fuel (limit - (x :: xs).length)
              (some ((x :: xs).getLast (by simp)))
    else []

/-- Models `PollAnswer.voters(limit=..., after=...)`: defaults `limit` to the
current `vote_count`, then raises
`RuntimeError('This poll answer is not attached to a message.')` unless the
answer has an id, a poll back-reference, and that poll has a message
(`pollMessage` stands for `self._poll._message`); otherwise runs the
pagination loop and returns the calls it made. -/
def PollAnswer.voters (a : PollAnswer) (pollMessage : Option Nat)
    (server : Nat → Option Nat → List Nat) (limit : Option Int)
    (after : Option Nat) : Except PyError (List PageCall) :=
  let lim : Int := limit.getD a.priv_vote_count
  if a.priv_id = none ∨ a.priv_poll = false ∨ pollMessage = none then
    .error (.runtimeError "This poll answer is not attached to a message.")
  else
    .ok (votersLoop server (lim.toNat + 1) lim after)

/- ### Validity of field payloads and supporting lemmas -/

/-- A field payload as the wire delivers it: `values`, when present, is a
list of strings (never the sentinel, which exists only in memory). -/
def FieldPayload.validWire : FieldPayload → Bool
  | { values := some .empty, .. } => false
  | _ => true

theorem tryEnum_serialize (v : Int) : (tryEnumFieldType v).serialize = v := by
  unfold tryEnumFieldType
  split <;> rfl

theorem fieldFactory_snd (v : Int) :
    (MembershipScreeningFormField.fieldFactory v).2 = tryEnumFieldType v := by
  unfold MembershipScreeningFormField.fieldFactory
  dsimp only
  split <;> rfl

namespace MembershipScreeningFormField

theorem to_dict_from_dict (d : FieldPayload) : (from_dict d).to_dict = d := by
  unfold from_dict to_dict
  simp [fieldFactory_snd, tryEnum_serialize]

end MembershipScreeningFormField

end Discord

namespace Discord

open MembershipScreeningFormField in
/-- C1: for every valid field payload, `from_dict` then `to_dict` then
`from_dict` again yields an object whose `type`, `label`, `required` and
`values` attributes equal those of the first object, and `copy` (defined as
`from_dict(to_dict(self))`) likewise preserves all four attributes. -/
theorem fromDict_toDict_roundtrip (d : FieldPayload) (h : d.validWire = true) :
    (from_dict (from_dict d).to_dict).type = (from_dict d).type
    ∧ (from_dict (from_dict d).to_dict).label = (from_dict d).label
    ∧ (from_dict (from_dict d).to_dict).required = (from_dict d).required
    ∧ (from_dict (from_dict d).to_dict).values = (from_dict d).values
    ∧ (from_dict d).copy.type = (from_dict d).type
    ∧ (from_dict d).copy.label = (from_dict d).label
    ∧ (from_dict d).copy.required = (from_dict d).required
    ∧ (from_dict d).copy.values = (from_dict d).values := by
  rw [copy, to_dict_from_dict]
  exact ⟨rfl, rfl, rfl, rfl, rfl, rfl, rfl, rfl⟩

/-- A concrete valid field payload used by witnesses. -/
def fieldPayloadW : FieldPayload :=
  { values := some (.list ["rule one", "rule two"])
    field_type := 1
    label := "Server Rules"
    required := true }

open MembershipScreeningFormField in
/-- Witness for C1 at a concrete payload. -/
theorem fromDict_toDict_roundtrip_witness :
    fieldPayloadW.validWire = true
    ∧ ((from_dict (from_dict fieldPayloadW).to_dict).type
          = (from_dict fieldPayloadW).type
        ∧ (from_dict (from_dict fieldPayloadW).to_dict).label
          = (from_dict fieldPayloadW).label
        ∧ (from_dict (from_dict fieldPayloadW).to_dict).required
          = (from_dict fieldPayloadW).required
        ∧ (from_dict (from_dict fieldPayloadW).to_dict).values
          = (from_dict fieldPayloadW).values
        ∧ (from_dict fieldPayloadW).copy.type = (from_dict fieldPayloadW).type
        ∧ (from_dict fieldPayloadW).copy.label = (from_dict fieldPayloadW).label
        ∧ (from_dict fieldPayloadW).copy.required
          = (from_dict fieldPayloadW).required
        ∧ (from_dict fieldPayloadW).copy.values
          = (from_dict fieldPayloadW).values) :=
  ⟨by decide, fromDict_toDict_roundtrip fieldPayloadW (by decide)⟩

/-- C4: `Poll.to_dict` raises a `ValueError` exactly when `duration` is
`None`; when a duration is present the produced `duration` field is the
floor division of its total seconds by 3600, which for a non-negative
duration is the truncated whole number of hours. -/
theorem poll_to_dict_duration (p : Poll) :
    (p.to_dict = .error (.valueError "Polls attached to messages cannot be created.")
        ↔ p.duration = none)
    ∧ ∀ td, p.duration = some td →
        ∃ req, p.to_dict = .ok req
          ∧ req.duration = Int.fdiv td.seconds 3600
          ∧ (0 ≤ td.seconds → req.duration = Int.ofNat (td.seconds.toNat / 3600)) := by
  constructor
  · cases h : p.duration with
    | none => simp [Poll.to_dict, h]
    | some td => simp [Poll.to_dict, h]
  · intro td h
    refine ⟨⟨p.question, p.answers.map PollAnswer.to_dict,
        p.allows_multiple_answers, p.layout, Int.fdiv td.seconds 3600⟩,
      by simp [Poll.to_dict, h], rfl, ?_⟩
    intro hnn
    have : td.seconds = Int.ofNat td.seconds.toNat := (Int.toNat_of_nonneg hnn).symm
    rw [this, Int.fdiv_eq_tdiv (by omega) (by omega)]
    rfl

/-- A concrete builder poll with `duration = timedelta(hours=25, minutes=30)`
(91800 seconds). -/
def pollW : Poll :=
  { question := "q"
    answers := [PollAnswer.make "a" none]
    duration := some ⟨91800⟩
    allows_multiple_answers := false
    layout := 1
    priv_message := none
    priv_expires := none
    priv_final := false }

/-- A concrete poll whose `duration` is absent. -/
def pollNoDuration : Poll :=
  { pollW with duration := none }

/-- Witness for C4: the 25h30m duration serialises to 25, and a missing
duration raises the `ValueError`. -/
theorem poll_to_dict_duration_witness :
    (∃ req, pollW.to_dict = .ok req ∧ req.duration = 25)
    ∧ pollNoDuration.to_dict
        = .error (.valueError "Polls attached to messages cannot be created.") := by
  refine ⟨?_, (poll_to_dict_duration pollNoDuration).1.mpr rfl⟩
  obtain ⟨req, hok, hdur, htr⟩ := (poll_to_dict_duration pollW).2 ⟨91800⟩ rfl
  exact ⟨req, hok, by rw [htr (by decide)]; decide⟩

/-- C5 (code bug): assigning a list containing a non-string to `values`
raises `NameError: name 'item' is not defined` — the raise statement's
format argument `item.__class__.__name__` refers to the generator-expression
variable of the preceding `all(...)`, which is out of scope — instead of the
documented `TypeError` naming the offending type.  (A non-list, non-sentinel
value does take the claimed `TypeError` branch, and a failed assignment
returns no new state, leaving `values` unchanged.) -/
theorem set_values_list_nonstring_nameError :
    MembershipScreeningFormField.set_values
        (MembershipScreeningFormField.from_dict fieldPayloadW)
        (.list [.other "int"])
      = .error (.nameError "item")
    ∧ MembershipScreeningFormField.set_values
        (MembershipScreeningFormField.from_dict fieldPayloadW)
        (.other "int")
      = .error (.typeError
          ("Expected List[str] or MembershipScreeningFormField.Empty but recieved "
            ++ "int" ++ " instead")) := by
  exact ⟨rfl, rfl⟩

/- ### Positional state injection (C3, C10) -/

theorem injectAnswers_get? (as : List PollAnswer) (ds : List PollAnswerPayload)
    (cs : List PollAnswerCountPayload) (i : Nat) (a : PollAnswer)
    (d : PollAnswerPayload) (c : PollAnswerCountPayload)
    (ha : as.get? i = some a) (hd : ds.get? i = some d)
    (hc : cs.get? i = some c) :
    (injectAnswers as ds cs).get? i = some (a.inject_state d (some c)) := by
  induction as generalizing ds cs i with
  | nil => simp at ha
  | cons a0 as ih =>
    cases ds with
    | nil => simp at hd
    | cons d0 ds =>
      cases cs with
      | nil => simp at hc
      | cons c0 cs =>
        cases i with
        | zero =>
          simp only [List.get?_cons_zero, Option.some.injEq] at ha hd hc
          subst ha; subst hd; subst hc
          rfl
        | succ n =>
          simp only [List.get?_cons_succ] at ha hd hc
          simpa [injectAnswers] using ih ds cs n ha hd hc

/-- C3: when the payload's `answers` and `results.answer_counts` both have
the same length as the poll's local answers, `Poll._inject_state` sets the
expiry (parsed from its ISO-8601 string) and the finalized flag, and the
`i`-th local answer — processed in input order — receives the `answer_id`
of the `i`-th payload answer and the `count` and `me_voted` of the `i`-th
count entry. -/
theorem poll_inject_state_positional (p : Poll) (m : Nat) (data : PollPayload)
    (hlen1 : data.answers.length = p.answers.length)
    (hlen2 : data.results.answer_counts.length = p.answers.length)
    (i : Nat) (a : PollAnswer) (d : PollAnswerPayload)
    (c : PollAnswerCountPayload)
    (ha : p.answers.get? i = some a)
    (hd : data.answers.get? i = some d)
    (hc : data.results.answer_counts.get? i = some c) :
    (p.inject_state m data).priv_expires = some (fromisoformat data.expiry)
    ∧ (p.inject_state m data).priv_final = data.results.is_finalized
    ∧ (p.inject_state m data).answers.get? i = some (a.inject_state d (some c))
    ∧ (a.inject_state d (some c)).priv_id = some d.answer_id
    ∧ (a.inject_state d (some c)).priv_vote_count = c.count
    ∧ (a.inject_state d (some c)).priv_me = c.me_voted :=
  ⟨rfl, rfl, injectAnswers_get? p.answers data.answers data.results.answer_counts
      i a d c ha hd hc, rfl, rfl, rfl⟩

/-- A concrete attached-poll payload with 3 answers and 3 count entries. -/
def payloadW : PollPayload :=
  { question_text := "q"
    answers :=
      [ { answer_id := 10, poll_media := { text := some "a", emoji := none }, emoji := none },
        { answer_id := 11, poll_media := { text := some "b", emoji := none }, emoji := none },
        { answer_id := 12, poll_media := { text := some "c", emoji := none }, emoji := none } ]
    expiry := "2024-06-01T00:00:00+00:00"
    allow_multiselect := false
    layout_type := 1
    results :=
      { is_finalized := true
        answer_counts :=
          [ { id := 10, count := 3, me_voted := false },
            { id := 11, count := 5, me_voted := true },
            { id := 12, count := 0, me_voted := false } ] } }

/-- A concrete local poll with 3 answers, matching `payloadW`. -/
def pollThree : Poll :=
  { question := "q"
    answers := [PollAnswer.make "a" none, PollAnswer.make "b" none, PollAnswer.make "c" none]
    duration := none
    allows_multiple_answers := false
    layout := 1
    priv_message := none
    priv_expires := none
    priv_final := false }

/-- Witness for C3 at index 1 of a 3-answer poll. -/
theorem poll_inject_state_positional_witness :
    (pollThree.inject_state 7 payloadW).priv_expires
        = some (fromisoformat "2024-06-01T00:00:00+00:00")
    ∧ (pollThree.inject_state 7 payloadW).priv_final = payloadW.results.is_finalized
    ∧ (pollThree.inject_state 7 payloadW).answers.get? 1
        = some ((PollAnswer.make "b" none).inject_state
            { answer_id := 11, poll_media := { text := some "b", emoji := none }, emoji := none }
            (some { id := 11, count := 5, me_voted := true }))
    ∧ ((PollAnswer.make "b" none).inject_state
            { answer_id := 11, poll_media := { text := some "b", emoji := none }, emoji := none }
            (some { id := 11, count := 5, me_voted := true })).priv_id = some 11
    ∧ ((PollAnswer.make "b" none).inject_state
            { answer_id := 11, poll_media := { text := some "b", emoji := none }, emoji := none }
            (some { id := 11, count := 5, me_voted := true })).priv_vote_count = 5
    ∧ ((PollAnswer.make "b" none).inject_state
            { answer_id := 11, poll_media := { text := some "b", emoji := none }, emoji := none }
            (some { id := 11, count := 5, me_voted := true })).priv_me = true :=
  poll_inject_state_positional pollThree 7 payloadW rfl rfl 1
    (PollAnswer.make "b" none)
    { answer_id := 11, poll_media := { text := some "b", emoji := none }, emoji := none }
    { id := 11, count := 5, me_voted := true } rfl rfl rfl

/-- C10: after `PollAnswer._inject_state`, the emoji comes from a top-level
`'emoji'` key of the answer payload (not from the nested `poll_media`
mapping), so whenever the payload has no top-level `'emoji'` key the answer
ends with `emoji = None`, regardless of any emoji inside `poll_media`. -/
theorem inject_state_emoji_top_level (a : PollAnswer) (d : PollAnswerPayload)
    (c : Option PollAnswerCountPayload) :
    (a.inject_state d c).emoji = d.emoji.map AnswerEmoji.obj
    ∧ (d.emoji = none → (a.inject_state d c).emoji = none) := by
  refine ⟨rfl, fun h => ?_⟩
  simp [PollAnswer.inject_state, h]

/-- Witness for C10: a payload whose `poll_media` carries an emoji but which
has no top-level `'emoji'` key yields an answer with `emoji = None`. -/
theorem inject_state_emoji_top_level_witness :
    ((PollAnswer.make "b" none).inject_state
        { answer_id := 11
          poll_media := { text := some "b", emoji := some { id := some 99, name := none } }
          emoji := none }
        (some { id := 11, count := 5, me_voted := true })).emoji = none :=
  (inject_state_emoji_top_level (PollAnswer.make "b" none)
      { answer_id := 11
        poll_media := { text := some "b", emoji := some { id := some 99, name := none } }
        emoji := none }
      (some { id := 11, count := 5, me_voted := true })).2 rfl

/- ### Poll construction validation (C7) -/

theorem buildAnswers_attached_error (pre : List AnswerInput) (off : PollAnswer)
    (post : List AnswerInput) (hoff : off.priv_poll = true) :
    buildAnswers (pre ++ AnswerInput.answer off :: post)
      = .error (.valueError "PollAnswer is already attached to a poll.") := by
  induction pre with
  | nil => simp [buildAnswers, hoff]
  | cons x pre ih =>
    cases x with
    | str s => simp [buildAnswers, PollAnswer.make, ih, Except.map]
    | answer a =>
      by_cases ha : a.priv_poll
      · simp [buildAnswers, ha]
      · simp [buildAnswers, ha, ih, Except.map]

/-- C7: constructing a `Poll` whose answers sequence contains a `PollAnswer`
with its poll back-reference already set raises
`ValueError('PollAnswer is already attached to a poll.')` at construction
time; the inputs after the offending answer are never examined (the error is
raised for every possible continuation `post`). -/
theorem poll_make_reused_answer_error (q : String) (pre : List AnswerInput)
    (off : PollAnswer) (post : List AnswerInput) (dur : Option Timedelta)
    (allows : Bool) (layout : Int)
    (hpre : ∀ x ∈ pre, ∀ a, x = AnswerInput.answer a → a.priv_poll = false)
    (hoff : off.priv_poll = true) :
    Poll.make q (pre ++ AnswerInput.answer off :: post) dur allows layout
      = .error (.valueError "PollAnswer is already attached to a poll.") := by
  unfold Poll.make
  rw [buildAnswers_attached_error pre off post hoff]
  rfl

/-- A `PollAnswer` that has been attached to a poll (its back-reference is
set by `_inject_state`). -/
def attachedAnswer : PollAnswer :=
  (PollAnswer.make "z" none).inject_state
    { answer_id := 1, poll_media := { text := some "z", emoji := none }, emoji := none }
    (some { id := 1, count := 0, me_voted := false })

/-- Witness for C7: a fresh string answer followed by an already-attached
answer and a further (never-examined) input. -/
theorem poll_make_reused_answer_error_witness :
    Poll.make "q" ([AnswerInput.str "x"]
        ++ AnswerInput.answer attachedAnswer :: [AnswerInput.str "y"])
      (some ⟨3600⟩) false 1
      = .error (.valueError "PollAnswer is already attached to a poll.") :=
  poll_make_reused_answer_error "q" [AnswerInput.str "x"] attachedAnswer
    [AnswerInput.str "y"] (some ⟨3600⟩) false 1
    (by
      intro x hx a hax
      rw [List.mem_singleton] at hx
      subst hx
      exact absurd hax (by simp))
    rfl

/- ### Vote-count bookkeeping (C8) -/

/-- One optimistic vote adjustment: an `_add_vote(me)` or `_remove_vote(me)`
call. -/
inductive VoteOp where
  | add (me : Bool)
  | remove (me : Bool)
deriving DecidableEq, Repr

def VoteOp.isAdd : VoteOp → Bool
  | .add _ => true
  | .remove _ => false

def VoteOp.isRemove : VoteOp → Bool
  | .add _ => false
  | .remove _ => true

/-- Applies a sequence of `_add_vote`/`_remove_vote` calls in order. -/
def applyVoteOps (a : PollAnswer) : List VoteOp → PollAnswer
  | [] => a
  | .add m :: rest => applyVoteOps (a.add_vote m) rest
  | .remove m :: rest => applyVoteOps (a.remove_vote m) rest

theorem applyVoteOps_count (ops : List VoteOp) (a : PollAnswer) :
    (applyVoteOps a ops).priv_vote_count
      = a.priv_vote_count + (ops.countP VoteOp.isAdd : Int)
        - (ops.countP VoteOp.isRemove : Int) := by
  induction ops generalizing a with
  | nil => simp [applyVoteOps]
  | cons op rest ih =>
    cases op with
    | add m =>
      rw [show applyVoteOps a (.add m :: rest) = applyVoteOps (a.add_vote m) rest from rfl,
        ih]
      simp [PollAnswer.add_vote, List.countP_cons, VoteOp.isAdd, VoteOp.isRemove]
      ring
    | remove m =>
      rw [show applyVoteOps a (.remove m :: rest)
            = applyVoteOps (a.remove_vote m) rest from rfl, ih]
      simp [PollAnswer.remove_vote, List.countP_cons, VoteOp.isAdd, VoteOp.isRemove]
      ring

/-- C8 counterexample: a single `_remove_vote` on a freshly constructed
answer drives `vote_count` to `-1`, below zero — the claimed invariant does
not hold under every sequence of `_add_vote`/`_remove_vote` calls. -/
theorem vote_count_negative_counterexample :
    ((PollAnswer.make "a" none).remove_vote false).priv_vote_count < 0 := by
  decide

/-- C8 amended: `vote_count` is 0 at construction; `_add_vote` increments it
by one and `_remove_vote` decrements it by one unconditionally, so it stays
non-negative exactly under call sequences in which no prefix contains more
`_remove_vote` than `_add_vote` calls (a lone `_remove_vote` produces -1). -/
theorem vote_count_nonneg_balanced (t : String) (e : Option AnswerEmoji)
    (ops : List VoteOp)
    (h : ∀ n, (ops.take n).countP VoteOp.isRemove ≤ (ops.take n).countP VoteOp.isAdd) :
    (PollAnswer.make t e).priv_vote_count = 0
    ∧ 0 ≤ (applyVoteOps (PollAnswer.make t e) ops).priv_vote_count := by
  refine ⟨rfl, ?_⟩
  rw [applyVoteOps_count]
  have hfin := h ops.length
  rw [List.take_length] at hfin
  simp [PollAnswer.make]
  omega

/-- Witness for C8 amended: the sequence add-then-remove keeps every prefix
balanced and ends at a non-negative count. -/
theorem vote_count_nonneg_balanced_witness :
    (PollAnswer.make "a" none).priv_vote_count = 0
    ∧ 0 ≤ (applyVoteOps (PollAnswer.make "a" none)
        [VoteOp.add true, VoteOp.remove true]).priv_vote_count :=
  vote_count_nonneg_balanced "a" none [VoteOp.add true, VoteOp.remove true]
    (by
      intro n
      match n with
      | 0 => decide
      | 1 => decide
      | Nat.succ (Nat.succ m) =>
        rw [List.take_of_length_le (by simp)]
        decide)

/- ### The screening-form update flow (C6, C9) -/

/-- A concrete form payload / state / field used by the update-flow
theorems. -/
def formPayloadW : FormPayload :=
  { version := "2024-01-01T00:00:00.000000+00:00"
    description := some "welcome"
    form_fields := [fieldPayloadW] }

def formStateW : FormState := formFromData formPayloadW

def fieldW : MembershipScreeningFormField :=
  MembershipScreeningFormField.from_dict fieldPayloadW

/-- A keyword mapping with no recognized option but one unrecognized
keyword argument. -/
def kwUnrecognized : UpdateKwargs :=
  { enabled := none, fields := none, description := none, extra := ["foo"] }

/-- C6 counterexample: a call that supplies no recognized option but does
supply an unrecognized keyword argument makes the kwargs dictionary truthy,
so both update methods issue a collaborator call rather than none. -/
theorem update_unrecognized_key_issues_call :
    (MembershipScreeningForm.update 5 formStateW kwUnrecognized formPayloadW).1 ≠ []
    ∧ (PartialMembershipScreeningForm.update 5 kwUnrecognized formPayloadW).1 ≠ [] := by
  constructor <;> decide

/-- C6 amended: calling `update` with an empty keyword mapping — no
arguments at all, recognized or not — issues zero collaborator calls;
the full form returns with its local state unmutated and the partial form
returns `None`.  (With any keyword argument present, even an unrecognized
one, the dictionary is truthy and a request is issued.) -/
theorem update_no_kwargs_noop (gid : Nat) (st : FormState) (kw : UpdateKwargs)
    (resp : FormPayload) (h1 : kw.enabled = none) (h2 : kw.fields = none)
    (h3 : kw.description = none) (h4 : kw.extra = []) :
    MembershipScreeningForm.update gid st kw resp = ([], st)
    ∧ PartialMembershipScreeningForm.update gid kw resp = ([], none) := by
  constructor <;>
    simp [MembershipScreeningForm.update, PartialMembershipScreeningForm.update,
      UpdateKwargs.nonempty, h1, h2, h3, h4]

/-- Witness for C6 amended at a concrete form and the empty mapping. -/
theorem update_no_kwargs_noop_witness :
    MembershipScreeningForm.update 5 formStateW
        { enabled := none, fields := none, description := none, extra := [] }
        formPayloadW
      = ([], formStateW)
    ∧ PartialMembershipScreeningForm.update 5
        { enabled := none, fields := none, description := none, extra := [] }
        formPayloadW
      = ([], none) :=
  update_no_kwargs_noop 5 formStateW
    { enabled := none, fields := none, description := none, extra := [] }
    formPayloadW rfl rfl rfl rfl

/-- C9: when a `fields` option is supplied, the mapping transmitted to
`update_member_verification` contains both the original `fields` key (the
unserialized field objects) and the derived `form_fields` key (each field
serialized via `to_dict` and converted to its string representation); the
`fields` key is not removed before transmission.  Both the full and the
partial form issue exactly this one request. -/
theorem update_transmits_fields_and_form_fields (gid : Nat) (st : FormState)
    (kw : UpdateKwargs) (resp : FormPayload)
    (fs : List MembershipScreeningFormField) (h : kw.fields = some fs) :
    (MembershipScreeningForm.update gid st kw resp).1
      = [{ guild_id := gid
           enabled := kw.enabled
           fields := some fs
           form_fields := some (fs.map fun f => strOfFieldPayload f.to_dict)
           description := kw.description
           extra := kw.extra }]
    ∧ (PartialMembershipScreeningForm.update gid kw resp).1
      = [{ guild_id := gid
           enabled := kw.enabled
           fields := some fs
           form_fields := some (fs.map fun f => strOfFieldPayload f.to_dict)
           description := kw.description
           extra := kw.extra }] := by
  constructor <;>
    simp [MembershipScreeningForm.update, PartialMembershipScreeningForm.update,
      UpdateKwargs.nonempty, h]

/-- Witness for C9 at a concrete one-field update. -/
theorem update_transmits_fields_and_form_fields_witness :
    (MembershipScreeningForm.update 5 formStateW
        { enabled := none, fields := some [fieldW], description := none, extra := [] }
        formPayloadW).1
      = [{ guild_id := 5
           enabled := none
           fields := some [fieldW]
           form_fields := some ([fieldW].map fun f => strOfFieldPayload f.to_dict)
           description := none
           extra := [] }]
    ∧ (PartialMembershipScreeningForm.update 5
        { enabled := none, fields := some [fieldW], description := none, extra := [] }
        formPayloadW).1
      = [{ guild_id := 5
           enabled := none
           fields := some [fieldW]
           form_fields := some ([fieldW].map fun f => strOfFieldPayload f.to_dict)
           description := none
           extra := [] }] :=
  update_transmits_fields_and_form_fields 5 formStateW
    { enabled := none, fields := some [fieldW], description := none, extra := [] }
    formPayloadW [fieldW] rfl

/- ### Voter pagination (C2) -/

theorem votersLoop_succ (server : Nat → Option Nat → List Nat) (fuel : Nat)
    (limit : Int) (after : Option Nat) :
    votersLoop server (fuel + 1) limit after
      = if 0 < limit then
          match server (min limit 100).toNat after with
          | [] => [{ retrieve := (min limit 100).toNat, after := after, yielded := [] }]
          | x :: xs =>
            { retrieve := (min limit 100).toNat, after := after
              yielded := (x :: xs).reverse }
              :: votersLoop server fuel (limit - (x :: xs).length)
                  (some ((x :: xs).getLast (by simp)))
        else [] := rfl

theorem votersLoop_two_full_pages (server : Nat → Option Nat → List Nat)
    (c1 : Nat) (hfull : ∀ r after, (server r after).length = r)
    (hc1 : (server 100 none).getLast? = some c1) :
    votersLoop server 151 150 none
      = [ { retrieve := 100, after := none, yielded := (server 100 none).reverse },
          { retrieve := 50, after := some c1
            yielded := (server 50 (some c1)).reverse } ] := by
  have hmin1 : (min (150 : Int) 100).toNat = 100 := by decide
  have hmin2 : (min (50 : Int) 100).toNat = 50 := by decide
  rcases hx : server 100 none with - | ⟨x, xs⟩
  · exfalso
    have := hfull 100 none
    rw [hx] at this
    simp at this
  rcases hy : server 50 (some c1) with - | ⟨y, ys⟩
  · exfalso
    have := hfull 50 (some c1)
    rw [hy] at this
    simp at this
  have hlen1 : (x :: xs).length = 100 := by rw [← hx]; exact hfull 100 none
  have hlen2 : (y :: ys).length = 50 := by rw [← hy]; exact hfull 50 (some c1)
  have hc1x : (x :: xs).getLast (by simp) = c1 := by
    have h := hc1
    rw [hx, List.getLast?_eq_getLast _ (by simp), Option.some.injEq] at h
    exact h
  rw [show (151 : Nat) = 150 + 1 from rfl, votersLoop_succ, if_pos (by decide),
    hmin1, hx]
  dsimp only
  rw [hlen1, hc1x, show (150 : Int) - ((100 : Nat) : Int) = 50 from by decide]
  rw [show (150 : Nat) = 149 + 1 from rfl, votersLoop_succ, if_pos (by decide),
    hmin2, hy]
  dsimp only
  rw [hlen2, show (50 : Int) - ((50 : Nat) : Int) = 0 from by decide]
  rw [show (149 : Nat) = 148 + 1 from rfl, votersLoop_succ, if_neg (by decide)]

/-- C2: on an answer attached to a poll and message, `voters(limit=150)`,
when the collaborator returns a full page for every request, issues exactly
2 page requests — the first asking for 100 items, the second for 50 — and
every yielded batch is the reverse of the received page, hence in ascending
user-identifier order whenever each page arrives in descending order. -/
theorem voters_150_two_pages_ascending (a : PollAnswer) (msg : Nat) (i : Nat)
    (server : Nat → Option Nat → List Nat)
    (hid : a.priv_id = some i) (hpoll : a.priv_poll = true)
    (hfull : ∀ r after, (server r after).length = r)
    (hdesc : ∀ r after, (server r after).Chain' (· > ·)) :
    (a.voters (some msg) server (some 150) none).isOk = true
    ∧ ∀ calls, a.voters (some msg) server (some 150) none = .ok calls →
        calls.map PageCall.retrieve = [100, 50]
        ∧ ∀ pc ∈ calls,
            pc.yielded = (server pc.retrieve pc.after).reverse
            ∧ pc.yielded.Chain' (· < ·) := by
  have hvoters : a.voters (some msg) server (some 150) none
      = .ok (votersLoop server 151 150 none) := by
    rw [PollAnswer.voters]
    rw [if_neg (by simp [hid, hpoll])]
    rfl
  have hne : (server 100 none).getLast?.isSome := by
    rw [List.getLast?_isSome]
    intro h
    have := hfull 100 none
    rw [h] at this
    simp at this
  obtain ⟨c1, hc1⟩ := Option.isSome_iff_exists.mp hne
  have hloop := votersLoop_two_full_pages server c1 hfull hc1
  have hasc : ∀ r after, ((server r after).reverse).Chain' (· < ·) := by
    intro r after
    rw [List.chain'_reverse]
    exact hdesc r after
  constructor
  · rw [hvoters]
    rfl
  · intro calls hcalls
    rw [hvoters, hloop, Except.ok.injEq] at hcalls
    subst hcalls
    refine ⟨rfl, ?_⟩
    intro pc hpc
    simp only [List.mem_cons, List.not_mem_nil, or_false] at hpc
    rcases hpc with rfl | rfl
    · exact ⟨rfl, hasc 100 none⟩
    · exact ⟨rfl, hasc 50 (some c1)⟩

/-- A strictly descending page of `n` identifiers: `[n, n-1, ..., 1]`. -/
def pageDown : Nat → List Nat
  | 0 => []
  | n + 1 => (n + 1) :: pageDown n

/-- A collaborator that returns a full page of identifiers in descending
order for every request, ignoring the cursor. -/
def descServer (r : Nat) (after : Option Nat) : List Nat :=
  pageDown r

theorem pageDown_length (n : Nat) : (pageDown n).length = n := by
  induction n with
  | zero => rfl
  | succ m ih => simp [pageDown, ih]

theorem pageDown_head? (n : Nat) (h : Nat) (hh : (pageDown n).head? = some h) :
    h = n := by
  cases n with
  | zero => simp [pageDown] at hh
  | succ m => simp [pageDown] at hh; omega

theorem pageDown_chain (n : Nat) : (pageDown n).Chain' (· > ·) := by
  induction n with
  | zero => simp [pageDown]
  | succ m ih =>
    rw [pageDown, List.chain'_cons']
    refine ⟨?_, ih⟩
    intro h hh
    have := pageDown_head? m h hh
    omega

/-- An answer attached to a poll (via `_inject_state`) with 150 votes. -/
def answerW : PollAnswer :=
  (PollAnswer.make "b" none).inject_state
    { answer_id := 11, poll_media := { text := some "b", emoji := none }, emoji := none }
    (some { id := 11, count := 150, me_voted := false })

/-- Witness for C2 at a concrete attached answer and the descending
collaborator. -/
theorem voters_150_two_pages_ascending_witness :
    answerW.voters (some 1) descServer (some 150) none
      = .ok [ { retrieve := 100, after := none, yielded := (descServer 100 none).reverse },
              { retrieve := 50, after := some 1
                yielded := (descServer 50 (some 1)).reverse } ]
    ∧ ((descServer 100 none).reverse).Chain' (· < ·)
    ∧ ((descServer 50 (some 1)).reverse).Chain' (· < ·) := by
  have h := voters_150_two_pages_ascending answerW 1 11 descServer rfl rfl
    (fun r after => pageDown_length r) (fun r after => pageDown_chain r)
  have heq : answerW.voters (some 1) descServer (some 150) none
      = .ok [ { retrieve := 100, after := none, yielded := (descServer 100 none).reverse },
              { retrieve := 50, after := some 1
                yielded := (descServer 50 (some 1)).reverse } ] := by rfl
  refine ⟨heq, ?_, ?_⟩
  · exact ((h.2 _ heq).2
      { retrieve := 100, after := none, yielded := (descServer 100 none).reverse }
      (by simp)).2
  · exact ((h.2 _ heq).2
      { retrieve := 50, after := some 1, yielded := (descServer 50 (some 1)).reverse }
      (by simp)).2

end Discord
